import Mathlib

set_option linter.unusedVariables false

/-!
Verification of the CCL compute-dispatch library (UlizesR/CCL) against its
natural-language specification.  The public API lives in `include/ccl.h`; the
Metal-backed layer is declared in `src/mtl_compute.h` with internal helpers in
`src/mtl_internal.h`.  Pure helpers present in the headers are embedded
directly from their C source; operations whose implementation files are not
part of the source tree are modelled from the specification, as marked in
their doc comments.
-/

namespace CCL

/-- Error codes of the public API, from `include/ccl.h` (`ccl_error`). -/
inductive ccl_error where
  | CCL_OK
  | CCL_ERROR_UNSUPPORTED_BACKEND
  | CCL_ERROR_BACKEND_INIT_FAILED
  | CCL_ERROR_DEVICE_FAILED
  | CCL_ERROR_COMPILE_FAILED
  | CCL_ERROR_INVALID_ARGUMENT
  | CCL_ERROR_DISPATCH_FAILED
  | CCL_ERROR_NOT_SUPPORTED
  deriving DecidableEq, Repr

/-- Error codes of the Metal layer, from `src/mtl_compute.h` (`MTLComputeError`). -/
inductive MTLComputeError where
  | MTL_SUCCESS
  | MTL_ERROR_NO_DEVICE
  | MTL_ERROR_SHADER_COMPILATION
  | MTL_ERROR_PIPELINE_CREATION
  | MTL_ERROR_BUFFER_CREATION
  | MTL_ERROR_COMMAND_ENCODING
  | MTL_ERROR_EXECUTION
  | MTL_ERROR_INVALID_PARAMETER
  | MTL_ERROR_IO
  | MTL_ERROR_UNSUPPORTED
  deriving DecidableEq, Repr

/-- The block of `n` bytes that C `strncpy(dst, src, n)` stores into `dst`
when `src` holds the bytes of a NUL-terminated string with no interior NUL:
the first `n` bytes of `src`, padded with NUL bytes up to length `n` when
`src` is shorter than `n`. -/
def strncpyBlock (src : List Nat) (n : Nat) : List Nat :=
  src.take n ++ List.replicate (n - src.length) 0

/-- `mtl_copy_error_log` from `src/mtl_internal.h`:
```
static inline void mtl_copy_error_log(const char* message, char* error_log, size_t error_log_size) {
    if (error_log && error_log_size > 0 && message) {
        strncpy(error_log, message, error_log_size - 1);
        error_log[error_log_size - 1] = 0;  // NUL terminator
    }
}
```
A nullable C pointer is an `Option`; the destination buffer is a byte list
whose length is `error_log_size`, and `message` is the byte content of the
source string before its NUL.  The result is the buffer after the call. -/
def mtl_copy_error_log (message : Option (List Nat)) (error_log : Option (List Nat)) :
    Option (List Nat) :=
  match error_log, message with
  | some log, some msg =>
    if 0 < log.length then
      some (strncpyBlock msg (log.length - 1) ++ [0])
    else
      some log
  | _, _ => error_log

theorem strncpyBlock_length (src : List Nat) (n : Nat) :
    (strncpyBlock src n).length = n := by
  simp [strncpyBlock]
  omega

theorem strncpyBlock_getElem (src : List Nat) (n i : Nat) (h : i < n) :
    (strncpyBlock src n)[i]? = some ((src[i]?).getD 0) := by
  by_cases hs : i < src.length
  · have hlt : i < (src.take n).length := by rw [List.length_take]; omega
    rw [strncpyBlock, List.getElem?_append_left hlt, List.getElem?_take_of_lt h,
      List.getElem?_eq_getElem hs]
    rfl
  · have hge : (src.take n).length ≤ i := by rw [List.length_take]; omega
    rw [strncpyBlock, List.getElem?_append_right hge]
    have hnone : src[i]? = none := List.getElem?_eq_none (by omega)
    rw [List.length_take, List.getElem?_replicate, if_pos (by omega), hnone]
    rfl

/-- C10: `mtl_copy_error_log` is bounds-safe and total: the destination
buffer keeps its length (no out-of-bounds write), every byte placed below
position `error_log_size - 1` is the corresponding message byte (or a NUL pad
byte past the message end), so at most `error_log_size - 1` message bytes are
written; the buffer is NUL-terminated whenever anything is written; and no
write happens when the destination is NULL, the size is 0, or the message is
NULL. -/
theorem mtl_copy_error_log_safe (msg log : List Nat) (h : 0 < log.length) :
    mtl_copy_error_log none (some log) = some log ∧
    mtl_copy_error_log (some msg) none = none ∧
    mtl_copy_error_log (some msg) (some []) = some [] ∧
    (mtl_copy_error_log (some msg) (some log)).map List.length = some log.length ∧
    (mtl_copy_error_log (some msg) (some log)).bind List.getLast? = some 0 ∧
    (∀ i, i < log.length - 1 →
      (mtl_copy_error_log (some msg) (some log)).bind (fun out => out[i]?) =
        some ((msg[i]?).getD 0)) := by
  refine ⟨rfl, rfl, rfl, ?_, ?_, ?_⟩
  · rw [mtl_copy_error_log, if_pos h]
    simp only [Option.map_some', List.length_append, strncpyBlock_length,
      List.length_cons, List.length_nil, Option.some.injEq]
    omega
  · rw [mtl_copy_error_log, if_pos h]
    simp only [Option.some_bind, List.getLast?_concat]
  · intro i hi
    rw [mtl_copy_error_log, if_pos h]
    have hlt : i < (strncpyBlock msg (log.length - 1)).length := by
      rw [strncpyBlock_length]; omega
    simp only [Option.some_bind]
    rw [List.getElem?_append_left hlt, strncpyBlock_getElem _ _ _ (by omega)]

theorem mtl_copy_error_log_safe_witness :
    mtl_copy_error_log none (some [9, 9, 9, 9]) = some [9, 9, 9, 9] ∧
    mtl_copy_error_log (some [65, 66]) none = none ∧
    mtl_copy_error_log (some [65, 66]) (some []) = some [] ∧
    (mtl_copy_error_log (some [65, 66]) (some [9, 9, 9, 9])).map List.length =
      some (List.length [9, 9, 9, 9]) ∧
    (mtl_copy_error_log (some [65, 66]) (some [9, 9, 9, 9])).bind List.getLast? = some 0 ∧
    (∀ i, i < (List.length [9, 9, 9, 9]) - 1 →
      (mtl_copy_error_log (some [65, 66]) (some [9, 9, 9, 9])).bind (fun out => out[i]?) =
        some ((([65, 66] : List Nat)[i]?).getD 0)) :=
  mtl_copy_error_log_safe [65, 66] [9, 9, 9, 9] (by decide)

/-- Modelled from the spec: the fixed set of boolean feature flags plus
numeric device limits queried once and cached at Context creation.  The
struct layout follows `MTLComputeDeviceCapabilities` in `src/mtl_compute.h`;
the code filling it (`mtl_detect_capabilities`) is not part of the source
tree. -/
structure MTLComputeDeviceCapabilities where
  supports_metal_3 : Bool
  supports_metal_4 : Bool
  supports_managed_storage : Bool
  supports_non_uniform_threadgroups : Bool
  supports_shared_events : Bool
  supports_binary_archives : Bool
  supports_heaps : Bool
  supports_indirect_dispatch : Bool
  supports_function_pointers : Bool
  supports_argument_buffers : Bool
  supports_indirect_command_buffers : Bool
  supports_simdgroup_matrix : Bool
  supports_raytracing : Bool
  max_threadgroup_memory : Nat
  max_threads_per_threadgroup : Nat
  recommended_max_working_set_size : Nat
  deriving DecidableEq, Repr

/-- Modelled from the spec: one encoded dispatch — pipeline reference, grid
size, thread-group size and bound buffers — as accumulated by a recording
session or submitted immediately (`MTLComputeDispatchDesc` in
`src/mtl_compute.h`; the encoder implementation is not part of the source
tree).  Kernels and buffers are identified by opaque handles. -/
structure MTLComputeDispatchDesc where
  kernel : Nat
  grid_size : Nat × Nat × Nat
  threadgroup_size : Nat × Nat × Nat
  buffers : List Nat
  deriving DecidableEq, Repr

/-- Modelled from the spec: the batching state machine of a Context, states
Idle and Recording, where Recording carries the accumulated encoded
dispatches of the open session. -/
inductive BatchState where
  | idle
  | recording (encoded : List MTLComputeDispatchDesc)
  deriving DecidableEq, Repr

/-- Modelled from the spec: a Fence handle returned by an asynchronous
submission, identified by the submission it tracks. -/
structure ccl_fence where
  id : Nat
  deriving DecidableEq, Repr

/-- Modelled from the spec: a Context owning one command queue (`submitted`
is the FIFO command stream of submissions, each a list of dispatches
submitted as one unit), the cached capability flags, the batching state, a
counter for fence creation, and a counter of backend objects created by
capability-gated features.  The implementation file of `ccl_context` is not
part of the source tree. -/
structure ccl_context where
  caps : MTLComputeDeviceCapabilities
  batch : BatchState
  submitted : List (List MTLComputeDispatchDesc)
  nextFence : Nat
  objCount : Nat
  deriving DecidableEq, Repr

/-- Modelled from the spec: `ccl_begin_batch` transitions Idle to Recording
with an empty session and fails — with no state change and no implicit
auto-close — when a session is already Recording. -/
def ccl_begin_batch (ctx : ccl_context) : ccl_error × ccl_context :=
  match ctx.batch with
  | .recording _ => (.CCL_ERROR_INVALID_ARGUMENT, ctx)
  | .idle => (.CCL_OK, { ctx with batch := .recording [] })

/-- Modelled from the spec: `ccl_end_batch` submits the accumulated commands
as one unit, returns to Idle, and returns the batch fence; it fails when no
session is Recording. -/
def ccl_end_batch (ctx : ccl_context) : ccl_error × ccl_context × Option ccl_fence :=
  match ctx.batch with
  | .idle => (.CCL_ERROR_INVALID_ARGUMENT, ctx, none)
  | .recording ds =>
    (.CCL_OK,
     { ctx with
        batch := .idle
        submitted := ctx.submitted ++ [ds]
        nextFence := ctx.nextFence + 1 },
     some ⟨ctx.nextFence⟩)

/-- Modelled from the spec: `ccl_dispatch_nd` validates the descriptor
(`dim` is 1..3 and every grid dimension is positive), then either appends the
dispatch to the Recording session or submits it immediately as its own
one-dispatch unit. -/
def ccl_dispatch_nd (ctx : ccl_context) (kernel : Nat) (dim : Nat)
    (global_size : Nat × Nat × Nat) (local_size : Nat × Nat × Nat)
    (buffers : List Nat) : ccl_error × ccl_context :=
  if dim < 1 ∨ 3 < dim ∨ global_size.1 = 0 ∨ global_size.2.1 = 0 ∨ global_size.2.2 = 0 then
    (.CCL_ERROR_INVALID_ARGUMENT, ctx)
  else
    let desc : MTLComputeDispatchDesc := ⟨kernel, global_size, local_size, buffers⟩
    match ctx.batch with
    | .recording ds => (.CCL_OK, { ctx with batch := .recording (ds ++ [desc]) })
    | .idle => (.CCL_OK, { ctx with submitted := ctx.submitted ++ [[desc]] })

/-- Modelled from the spec: `ccl_dispatch_nd_async`.  `wantFence` is whether
the caller passed a non-null `out_fence`; the `Option ccl_fence` result is
the value stored through it (`none` = NULL stored).  While a batch is
Recording the dispatch is appended to the session, no per-call fence is
created, and NULL is stored into `out_fence`; while Idle the dispatch is
submitted on its own and a fresh fence is returned when requested. -/
def ccl_dispatch_nd_async (ctx : ccl_context) (kernel : Nat) (dim : Nat)
    (global_size : Nat × Nat × Nat) (local_size : Nat × Nat × Nat)
    (buffers : List Nat) (wantFence : Bool) :
    ccl_error × ccl_context × Option ccl_fence :=
  if dim < 1 ∨ 3 < dim ∨ global_size.1 = 0 ∨ global_size.2.1 = 0 ∨ global_size.2.2 = 0 then
    (.CCL_ERROR_INVALID_ARGUMENT, ctx, none)
  else
    let desc : MTLComputeDispatchDesc := ⟨kernel, global_size, local_size, buffers⟩
    match ctx.batch with
    | .recording ds =>
      (.CCL_OK, { ctx with batch := .recording (ds ++ [desc]) }, none)
    | .idle =>
      if wantFence then
        (.CCL_OK,
         { ctx with
            submitted := ctx.submitted ++ [[desc]]
            nextFence := ctx.nextFence + 1 },
         some ⟨ctx.nextFence⟩)
      else
        (.CCL_OK, { ctx with submitted := ctx.submitted ++ [[desc]] }, none)

/-- Modelled from the spec: `ccl_dispatch_1d`, the convenience wrapper that
forwards to `ccl_dispatch_nd` with `dim = 1` and the 1-D sizes placed in the
x slot of the three-dimensional arrays. -/
def ccl_dispatch_1d (ctx : ccl_context) (kernel : Nat) (global_size : Nat)
    (local_size : Nat) (buffers : List Nat) : ccl_error × ccl_context :=
  ccl_dispatch_nd ctx kernel 1 (global_size, 1, 1) (local_size, 1, 1) buffers

/-- Modelled from the spec: `ccl_dispatch_1d_async`, the asynchronous
convenience wrapper over `ccl_dispatch_nd_async`. -/
def ccl_dispatch_1d_async (ctx : ccl_context) (kernel : Nat) (global_size : Nat)
    (local_size : Nat) (buffers : List Nat) (wantFence : Bool) :
    ccl_error × ccl_context × Option ccl_fence :=
  ccl_dispatch_nd_async ctx kernel 1 (global_size, 1, 1) (local_size, 1, 1) buffers wantFence

/-- Capability set with every feature flag false and all limits zero, used as
a concrete test device. -/
def noFeatureCaps : MTLComputeDeviceCapabilities :=
  ⟨false, false, false, false, false, false, false, false, false, false,
   false, false, false, 0, 0, 0⟩

/-- A concrete Context whose batch state is Idle. -/
def sampleCtxIdle : ccl_context :=
  ⟨noFeatureCaps, .idle, [], 0, 0⟩

/-- A concrete Context whose batch state is Recording with one encoded
dispatch. -/
def sampleCtxRecording : ccl_context :=
  ⟨noFeatureCaps, .recording [⟨5, (64, 1, 1), (0, 0, 0), [1, 2]⟩], [], 3, 0⟩

/-- C1: while a Context is Recording, a second `ccl_begin_batch` returns an
error (not CCL_OK) and leaves the Context — in particular the first
recording session and its accumulated encoded dispatches — unchanged; there
is no implicit auto-close. -/
theorem begin_batch_while_recording_errors (ctx : ccl_context)
    (ds : List MTLComputeDispatchDesc) (h : ctx.batch = .recording ds) :
    (ccl_begin_batch ctx).1 ≠ ccl_error.CCL_OK ∧
    (ccl_begin_batch ctx).2 = ctx ∧
    (ccl_begin_batch ctx).2.batch = .recording ds := by
  simp [ccl_begin_batch, h]

theorem begin_batch_while_recording_errors_witness :
    (ccl_begin_batch sampleCtxRecording).1 ≠ ccl_error.CCL_OK ∧
    (ccl_begin_batch sampleCtxRecording).2 = sampleCtxRecording ∧
    (ccl_begin_batch sampleCtxRecording).2.batch =
      .recording [⟨5, (64, 1, 1), (0, 0, 0), [1, 2]⟩] :=
  begin_batch_while_recording_errors sampleCtxRecording
    [⟨5, (64, 1, 1), (0, 0, 0), [1, 2]⟩] rfl

/-- C2: every async dispatch (`ccl_dispatch_nd_async` or
`ccl_dispatch_1d_async`) issued with a non-null `out_fence` while the
Context is Recording stores NULL into `*out_fence` and creates no per-call
fence (the fence counter is unchanged); the only fence for work of that
recording span is the one `ccl_end_batch` returns. -/
theorem async_dispatch_while_recording_no_fence (ctx : ccl_context)
    (ds : List MTLComputeDispatchDesc) (h : ctx.batch = .recording ds)
    (kernel dim : Nat) (gsize lsize : Nat × Nat × Nat) (buffers : List Nat)
    (n l : Nat) :
    (ccl_dispatch_nd_async ctx kernel dim gsize lsize buffers true).2.2 = none ∧
    (ccl_dispatch_nd_async ctx kernel dim gsize lsize buffers true).2.1.nextFence
      = ctx.nextFence ∧
    (ccl_dispatch_1d_async ctx kernel n l buffers true).2.2 = none ∧
    (ccl_dispatch_1d_async ctx kernel n l buffers true).2.1.nextFence = ctx.nextFence ∧
    (ccl_end_batch ctx).2.2 = some ⟨ctx.nextFence⟩ := by
  have hnd : ∀ (k d : Nat) (g ls : Nat × Nat × Nat) (bs : List Nat),
      (ccl_dispatch_nd_async ctx k d g ls bs true).2.2 = none ∧
      (ccl_dispatch_nd_async ctx k d g ls bs true).2.1.nextFence = ctx.nextFence := by
    intro k d g ls bs
    unfold ccl_dispatch_nd_async
    split
    · exact ⟨rfl, rfl⟩
    · rw [h]
      exact ⟨rfl, rfl⟩
  refine ⟨(hnd kernel dim gsize lsize buffers).1, (hnd kernel dim gsize lsize buffers).2,
    (hnd kernel 1 (n, 1, 1) (l, 1, 1) buffers).1,
    (hnd kernel 1 (n, 1, 1) (l, 1, 1) buffers).2, ?_⟩
  simp [ccl_end_batch, h]

theorem async_dispatch_while_recording_no_fence_witness :
    (ccl_dispatch_nd_async sampleCtxRecording 7 3 (8, 8, 2) (0, 0, 0) [4] true).2.2 = none ∧
    (ccl_dispatch_nd_async sampleCtxRecording 7 3 (8, 8, 2) (0, 0, 0) [4] true).2.1.nextFence
      = sampleCtxRecording.nextFence ∧
    (ccl_dispatch_1d_async sampleCtxRecording 7 64 0 [4] true).2.2 = none ∧
    (ccl_dispatch_1d_async sampleCtxRecording 7 64 0 [4] true).2.1.nextFence
      = sampleCtxRecording.nextFence ∧
    (ccl_end_batch sampleCtxRecording).2.2 = some ⟨sampleCtxRecording.nextFence⟩ :=
  async_dispatch_while_recording_no_fence sampleCtxRecording
    [⟨5, (64, 1, 1), (0, 0, 0), [1, 2]⟩] rfl 7 3 (8, 8, 2) (0, 0, 0) [4] 64 0

/-- C9: `ccl_dispatch_1d` is the convenience wrapper over `ccl_dispatch_nd`:
for every context, kernel, global size, local size and buffer list it
returns the same error code and produces the same resulting context as
`ccl_dispatch_nd` with `dim = 1`, global size `[n,1,1]` and local size
`[l,1,1]`. -/
theorem dispatch_1d_refines_nd (ctx : ccl_context) (kernel n l : Nat)
    (buffers : List Nat) :
    ccl_dispatch_1d ctx kernel n l buffers =
      ccl_dispatch_nd ctx kernel 1 (n, 1, 1) (l, 1, 1) buffers := rfl

/-- Modelled from the spec: a compiled pipeline with its device-reported
limits.  Mirrors `struct MTLComputePipeline` in `src/mtl_internal.h`, whose
`pipelineState` (here the opaque `id`) carries the
max-threads-per-threadgroup and execution-width limits used by auto
thread-group sizing; the implementation file is not part of the source
tree. -/
structure MTLComputePipeline where
  id : Nat
  maxTotalThreadsPerThreadgroup : Nat
  threadExecutionWidth : Nat
  deriving DecidableEq, Repr

/-- Modelled from the spec:
`mtl_compute_pipeline_max_threads_per_threadgroup` returns the pipeline's
maximum total threads per threadgroup. -/
def mtl_compute_pipeline_max_threads_per_threadgroup (p : MTLComputePipeline) : Nat :=
  p.maxTotalThreadsPerThreadgroup

/-- The candidate thread-group sizes for 1-D auto-sizing: positive divisors
of the pipeline limit `M` that are multiples of the execution width `W` and
do not exceed the total work size `T`. -/
def tgCandidates (M W T : Nat) : List Nat :=
  (List.range (M + 1)).filter (fun d => decide (0 < d ∧ d ∣ M ∧ W ∣ d ∧ d ≤ T))

/-- Modelled from the spec: `mtl_compute_auto_threadgroup_1d` chooses the
largest divisor of the pipeline's max-threads-per-group that is a multiple
of the execution width and does not exceed the total work size, and computes
the group count as ceiling(total/group).  The spec does not fix the choice
when no such divisor exists (for example when the total is smaller than the
execution width); this model then falls back to a single-thread group. -/
def mtl_compute_auto_threadgroup_1d (p : MTLComputePipeline) (total_threads : Nat) :
    Nat × Nat :=
  let M := mtl_compute_pipeline_max_threads_per_threadgroup p
  let W := p.threadExecutionWidth
  let best := (tgCandidates M W total_threads).foldl max 0
  let tpg := if best = 0 then 1 else best
  (tpg, (total_threads + tpg - 1) / tpg)

/-- Modelled from the spec: `mtl_compute_auto_threadgroup_2d` prefers a
fixed 16×16 square tile when it fits within the max-threads-per-group
budget, else shrinks the tile until it fits. -/
def mtl_compute_auto_threadgroup_2d (p : MTLComputePipeline)
    (grid_width grid_height : Nat) : Nat × Nat :=
  let M := mtl_compute_pipeline_max_threads_per_threadgroup p
  let side :=
    if 16 * 16 ≤ M then 16
    else if 8 * 8 ≤ M then 8
    else if 4 * 4 ≤ M then 4
    else if 2 * 2 ≤ M then 2
    else 1
  (side, side)

theorem le_foldl_max (l : List Nat) (a : Nat) : a ≤ l.foldl max a := by
  induction l generalizing a with
  | nil => exact Nat.le_refl a
  | cons x xs ih => exact Nat.le_trans (Nat.le_max_left a x) (ih (max a x))

theorem foldl_max_le_of_mem {x : Nat} (l : List Nat) (a : Nat) (hx : x ∈ l) :
    x ≤ l.foldl max a := by
  induction l generalizing a with
  | nil => cases hx
  | cons y ys ih =>
    rcases List.mem_cons.mp hx with hh | hh
    · subst hh
      exact Nat.le_trans (Nat.le_max_right a x) (le_foldl_max ys (max a x))
    · exact ih (max a y) hh

theorem foldl_max_mem (l : List Nat) (a : Nat) :
    l.foldl max a = a ∨ l.foldl max a ∈ l := by
  induction l generalizing a with
  | nil => exact Or.inl rfl
  | cons y ys ih =>
    rcases ih (max a y) with hh | hh
    · rcases max_choice a y with hm | hm
      · exact Or.inl (by rw [List.foldl_cons, hh, hm])
      · exact Or.inr (by rw [List.foldl_cons, hh, hm]; exact List.mem_cons_self y ys)
    · exact Or.inr (List.mem_cons_of_mem y hh)

theorem mem_tgCandidates {M W T d : Nat} (hM : 0 < M) :
    d ∈ tgCandidates M W T ↔ 0 < d ∧ d ∣ M ∧ W ∣ d ∧ d ≤ T := by
  constructor
  · intro hd
    have := List.mem_filter.mp hd
    simpa using this.2
  · intro hd
    refine List.mem_filter.mpr ⟨?_, by simpa using hd⟩
    have : d ≤ M := Nat.le_of_dvd hM hd.2.1
    exact List.mem_range.mpr (by omega)

/-- A concrete pipeline with Metal-typical limits (1024 max threads per
threadgroup, execution width 32). -/
def samplePipeline : MTLComputePipeline := ⟨0, 1024, 32⟩

/-- A second pipeline object, distinct from `samplePipeline` but with the
same limits. -/
def samplePipelineB : MTLComputePipeline := ⟨1, 1024, 32⟩

/-- C3: for a pipeline with positive max-threads-per-group `M` and positive
execution width `W` dividing `M`, and total 1-D work `T` at least `W` (so
that a candidate divisor exists), `mtl_compute_auto_threadgroup_1d` returns
a `threads_per_group` that is the largest divisor of `M` that is a multiple
of `W` and does not exceed `T` — in particular it never exceeds `M` — and a
`num_groups` equal to ceiling(T / threads_per_group), expressed as: the
groups cover `T` threads and could not do so with one group fewer. -/
theorem auto_threadgroup_1d_correct (p : MTLComputePipeline) (T : Nat)
    (hM : 0 < p.maxTotalThreadsPerThreadgroup)
    (hW : 0 < p.threadExecutionWidth)
    (hdvd : p.threadExecutionWidth ∣ p.maxTotalThreadsPerThreadgroup)
    (hWT : p.threadExecutionWidth ≤ T) :
    (mtl_compute_auto_threadgroup_1d p T).1 ∣ p.maxTotalThreadsPerThreadgroup ∧
    p.threadExecutionWidth ∣ (mtl_compute_auto_threadgroup_1d p T).1 ∧
    (mtl_compute_auto_threadgroup_1d p T).1 ≤ T ∧
    (mtl_compute_auto_threadgroup_1d p T).1 ≤ p.maxTotalThreadsPerThreadgroup ∧
    (∀ d, 0 < d → d ∣ p.maxTotalThreadsPerThreadgroup → p.threadExecutionWidth ∣ d →
      d ≤ T → d ≤ (mtl_compute_auto_threadgroup_1d p T).1) ∧
    T ≤ (mtl_compute_auto_threadgroup_1d p T).2 * (mtl_compute_auto_threadgroup_1d p T).1 ∧
    (mtl_compute_auto_threadgroup_1d p T).2 * (mtl_compute_auto_threadgroup_1d p T).1
      < T + (mtl_compute_auto_threadgroup_1d p T).1 := by
  have hWmem : p.threadExecutionWidth ∈
      tgCandidates p.maxTotalThreadsPerThreadgroup p.threadExecutionWidth T :=
    (mem_tgCandidates hM).mpr ⟨hW, hdvd, dvd_refl _, hWT⟩
  have hbestW : p.threadExecutionWidth ≤
      (tgCandidates p.maxTotalThreadsPerThreadgroup p.threadExecutionWidth T).foldl max 0 :=
    foldl_max_le_of_mem _ 0 hWmem
  have hbest0 :
      (tgCandidates p.maxTotalThreadsPerThreadgroup p.threadExecutionWidth T).foldl max 0
        ≠ 0 := by omega
  have hbestmem :
      (tgCandidates p.maxTotalThreadsPerThreadgroup p.threadExecutionWidth T).foldl max 0
        ∈ tgCandidates p.maxTotalThreadsPerThreadgroup p.threadExecutionWidth T := by
    rcases foldl_max_mem
        (tgCandidates p.maxTotalThreadsPerThreadgroup p.threadExecutionWidth T) 0 with hh | hh
    · exact absurd hh hbest0
    · exact hh
  have hprops := (mem_tgCandidates hM).mp hbestmem
  have htpg : (mtl_compute_auto_threadgroup_1d p T).1 =
      (tgCandidates p.maxTotalThreadsPerThreadgroup p.threadExecutionWidth T).foldl max 0 := by
    rw [mtl_compute_auto_threadgroup_1d]
    simp only [mtl_compute_pipeline_max_threads_per_threadgroup, if_neg hbest0]
  have hng : (mtl_compute_auto_threadgroup_1d p T).2 =
      (T + (mtl_compute_auto_threadgroup_1d p T).1 - 1) /
        (mtl_compute_auto_threadgroup_1d p T).1 := by
    rw [mtl_compute_auto_threadgroup_1d]
  rw [htpg, hng, htpg]
  refine ⟨hprops.2.1, hprops.2.2.1, hprops.2.2.2, Nat.le_of_dvd hM hprops.2.1, ?_, ?_, ?_⟩
  · intro d hd0 hdM hWd hdT
    exact foldl_max_le_of_mem _ 0 ((mem_tgCandidates hM).mpr ⟨hd0, hdM, hWd, hdT⟩)
  · have hg0 : 0 <
        (tgCandidates p.maxTotalThreadsPerThreadgroup p.threadExecutionWidth T).foldl max 0 := by
      omega
    generalize hgen :
      (tgCandidates p.maxTotalThreadsPerThreadgroup p.threadExecutionWidth T).foldl max 0 = g
        at hg0 ⊢
    have hdm := Nat.div_add_mod (T + g - 1) g
    have hmlt : (T + g - 1) % g < g := Nat.mod_lt _ hg0
    rw [Nat.mul_comm]
    generalize g * ((T + g - 1) / g) = X at hdm ⊢
    omega
  · have hg0 : 0 <
        (tgCandidates p.maxTotalThreadsPerThreadgroup p.threadExecutionWidth T).foldl max 0 := by
      omega
    generalize hgen :
      (tgCandidates p.maxTotalThreadsPerThreadgroup p.threadExecutionWidth T).foldl max 0 = g
        at hg0 ⊢
    have hdm := Nat.div_add_mod (T + g - 1) g
    have hmlt : (T + g - 1) % g < g := Nat.mod_lt _ hg0
    rw [Nat.mul_comm]
    generalize g * ((T + g - 1) / g) = X at hdm ⊢
    omega

theorem auto_threadgroup_1d_correct_witness :
    (mtl_compute_auto_threadgroup_1d samplePipeline 100).1 ∣
      samplePipeline.maxTotalThreadsPerThreadgroup ∧
    samplePipeline.threadExecutionWidth ∣ (mtl_compute_auto_threadgroup_1d samplePipeline 100).1 ∧
    (mtl_compute_auto_threadgroup_1d samplePipeline 100).1 ≤ 100 ∧
    (mtl_compute_auto_threadgroup_1d samplePipeline 100).1 ≤
      samplePipeline.maxTotalThreadsPerThreadgroup ∧
    (∀ d, 0 < d → d ∣ samplePipeline.maxTotalThreadsPerThreadgroup →
      samplePipeline.threadExecutionWidth ∣ d → d ≤ 100 →
      d ≤ (mtl_compute_auto_threadgroup_1d samplePipeline 100).1) ∧
    100 ≤ (mtl_compute_auto_threadgroup_1d samplePipeline 100).2 *
      (mtl_compute_auto_threadgroup_1d samplePipeline 100).1 ∧
    (mtl_compute_auto_threadgroup_1d samplePipeline 100).2 *
      (mtl_compute_auto_threadgroup_1d samplePipeline 100).1
      < 100 + (mtl_compute_auto_threadgroup_1d samplePipeline 100).1 :=
  auto_threadgroup_1d_correct samplePipeline 100 (by decide) (by decide)
    (by decide) (by decide)

/-- C8: auto thread-group resolution is deterministic: two pipeline objects
with the same max-threads-per-group and execution-width limits yield
identical 1-D and 2-D auto-sizing results on the same grid, whatever their
other state. -/
theorem auto_threadgroup_deterministic (p q : MTLComputePipeline)
    (hmax : p.maxTotalThreadsPerThreadgroup = q.maxTotalThreadsPerThreadgroup)
    (hwidth : p.threadExecutionWidth = q.threadExecutionWidth)
    (T gw gh : Nat) :
    mtl_compute_auto_threadgroup_1d p T = mtl_compute_auto_threadgroup_1d q T ∧
    mtl_compute_auto_threadgroup_2d p gw gh = mtl_compute_auto_threadgroup_2d q gw gh := by
  constructor
  · rw [mtl_compute_auto_threadgroup_1d, mtl_compute_auto_threadgroup_1d,
      mtl_compute_pipeline_max_threads_per_threadgroup,
      mtl_compute_pipeline_max_threads_per_threadgroup, hmax, hwidth]
  · rw [mtl_compute_auto_threadgroup_2d, mtl_compute_auto_threadgroup_2d,
      mtl_compute_pipeline_max_threads_per_threadgroup,
      mtl_compute_pipeline_max_threads_per_threadgroup, hmax]

theorem auto_threadgroup_deterministic_witness :
    mtl_compute_auto_threadgroup_1d samplePipeline 100 =
      mtl_compute_auto_threadgroup_1d samplePipelineB 100 ∧
    mtl_compute_auto_threadgroup_2d samplePipeline 640 480 =
      mtl_compute_auto_threadgroup_2d samplePipelineB 640 480 :=
  auto_threadgroup_deterministic samplePipeline samplePipelineB rfl rfl 100 640 480

/-- Modelled from the spec: a kernel (Pipeline) wrapping a compiled entry
point (the opaque `id`) plus its persistent uniform bytes keyed by integer
buffer index (`ccl_set_bytes` in `include/ccl.h`; the implementation file is
not part of the source tree). -/
structure ccl_kernel where
  id : Nat
  uniforms : List (Nat × List Nat)
  deriving DecidableEq, Repr

/-- Modelled from the spec: `ccl_set_bytes` binds uniform bytes at a buffer
index at Pipeline level; the binding persists across dispatches until
explicitly cleared.  Setting the same index again replaces the previous
bytes. -/
def ccl_set_bytes (kernel : ccl_kernel) (index : Nat) (data : List Nat) :
    ccl_error × ccl_kernel :=
  (.CCL_OK,
   { kernel with
      uniforms := (index, data) :: kernel.uniforms.filter (fun e => e.1 ≠ index) })

/-- Modelled from the spec: `ccl_clear_bytes` clears all uniforms for a
kernel. -/
def ccl_clear_bytes (kernel : ccl_kernel) : ccl_kernel :=
  { kernel with uniforms := [] }

/-- What a kernel observes at one binding index during one dispatch. -/
inductive Binding where
  | buffer (handle : Nat)
  | uniform (data : List Nat)
  | nothing
  deriving DecidableEq, Repr

/-- Modelled from the spec: the binding the kernel observes at index `i`
during a dispatch that passes `buffers` (bound positionally at indices
0..count-1).  Uniforms and buffers share one index namespace and buffers are
set after uniforms in dispatch, so a buffer present at `i` overrides the
uniform for that call. -/
def observedBinding (kernel : ccl_kernel) (buffers : List Nat) (i : Nat) : Binding :=
  match buffers[i]? with
  | some b => .buffer b
  | none =>
    match kernel.uniforms.lookup i with
    | some d => .uniform d
    | none => .nothing

/-- Modelled from the spec: one dispatch of a kernel — the per-index
bindings the kernel observes during the call, paired with the kernel state
after the dispatch.  Buffer binding is applied per-call only; the dispatch
leaves the Pipeline-level uniforms untouched. -/
def ccl_kernel_dispatch (kernel : ccl_kernel) (buffers : List Nat) :
    (Nat → Binding) × ccl_kernel :=
  (observedBinding kernel buffers, kernel)

/-- C4: uniform bytes set with `ccl_set_bytes` at index `N` stay bound
across subsequent dispatches — here two consecutive dispatches — until
`ccl_clear_bytes`; a dispatch passing a buffer list that covers index `N`
sees the buffer override the uniform for that dispatch only, and the
following dispatch observes the uniform at `N` again; after
`ccl_clear_bytes` nothing is bound at `N`. -/
theorem set_bytes_persists_until_clear (k : ccl_kernel) (N : Nat) (d : List Nat)
    (bufs bufsOver : List Nat) (hb : bufs.length ≤ N) (hover : N < bufsOver.length) :
    (ccl_set_bytes k N d).1 = ccl_error.CCL_OK ∧
    (ccl_kernel_dispatch (ccl_set_bytes k N d).2 bufs).2 = (ccl_set_bytes k N d).2 ∧
    (ccl_kernel_dispatch (ccl_set_bytes k N d).2 bufs).1 N = Binding.uniform d ∧
    (ccl_kernel_dispatch (ccl_kernel_dispatch (ccl_set_bytes k N d).2 bufs).2 bufs).1 N
      = Binding.uniform d ∧
    (ccl_kernel_dispatch (ccl_set_bytes k N d).2 bufsOver).1 N
      = Binding.buffer (bufsOver.getD N 0) ∧
    (ccl_kernel_dispatch (ccl_kernel_dispatch (ccl_set_bytes k N d).2 bufsOver).2 bufs).1 N
      = Binding.uniform d ∧
    (ccl_kernel_dispatch (ccl_clear_bytes (ccl_set_bytes k N d).2) bufs).1 N
      = Binding.nothing := by
  have hnone : bufs[N]? = none := List.getElem?_eq_none hb
  have hsome : bufsOver[N]? = some (bufsOver.getD N 0) := by
    rw [List.getD_eq_getElem?_getD, List.getElem?_eq_getElem hover]
    rfl
  refine ⟨rfl, rfl, ?_, ?_, ?_, ?_, ?_⟩
  · show observedBinding (ccl_set_bytes k N d).2 bufs N = Binding.uniform d
    unfold observedBinding
    rw [hnone]
    simp [ccl_set_bytes]
  · show observedBinding (ccl_set_bytes k N d).2 bufs N = Binding.uniform d
    unfold observedBinding
    rw [hnone]
    simp [ccl_set_bytes]
  · show observedBinding (ccl_set_bytes k N d).2 bufsOver N
      = Binding.buffer (bufsOver.getD N 0)
    unfold observedBinding
    rw [hsome]
  · show observedBinding (ccl_set_bytes k N d).2 bufs N = Binding.uniform d
    unfold observedBinding
    rw [hnone]
    simp [ccl_set_bytes]
  · show observedBinding (ccl_clear_bytes (ccl_set_bytes k N d).2) bufs N = Binding.nothing
    unfold observedBinding
    rw [hnone]
    simp [ccl_clear_bytes]

theorem set_bytes_persists_until_clear_witness :
    (ccl_set_bytes ⟨0, []⟩ 3 [7]).1 = ccl_error.CCL_OK ∧
    (ccl_kernel_dispatch (ccl_set_bytes ⟨0, []⟩ 3 [7]).2 [1, 2, 3]).2
      = (ccl_set_bytes ⟨0, []⟩ 3 [7]).2 ∧
    (ccl_kernel_dispatch (ccl_set_bytes ⟨0, []⟩ 3 [7]).2 [1, 2, 3]).1 3
      = Binding.uniform [7] ∧
    (ccl_kernel_dispatch
      (ccl_kernel_dispatch (ccl_set_bytes ⟨0, []⟩ 3 [7]).2 [1, 2, 3]).2 [1, 2, 3]).1 3
      = Binding.uniform [7] ∧
    (ccl_kernel_dispatch (ccl_set_bytes ⟨0, []⟩ 3 [7]).2 [1, 2, 3, 4]).1 3
      = Binding.buffer (([1, 2, 3, 4] : List Nat).getD 3 0) ∧
    (ccl_kernel_dispatch
      (ccl_kernel_dispatch (ccl_set_bytes ⟨0, []⟩ 3 [7]).2 [1, 2, 3, 4]).2 [1, 2, 3]).1 3
      = Binding.uniform [7] ∧
    (ccl_kernel_dispatch (ccl_clear_bytes (ccl_set_bytes ⟨0, []⟩ 3 [7]).2) [1, 2, 3]).1 3
      = Binding.nothing :=
  set_bytes_persists_until_clear ⟨0, []⟩ 3 [7] [1, 2, 3] [1, 2, 3, 4]
    (by decide) (by decide)

/-- Buffer usage hints from `include/ccl.h` (`ccl_buffer_usage`). -/
inductive ccl_buffer_usage where
  | CCL_BUFFER_USAGE_DEFAULT
  | CCL_BUFFER_USAGE_GPU_ONLY
  | CCL_BUFFER_USAGE_CPU_TO_GPU
  | CCL_BUFFER_USAGE_GPU_TO_CPU
  deriving DecidableEq, Repr

/-- Modelled from the spec: a Buffer — an opaque handle to a fixed-size
memory region with a usage hint; `contents` is the byte content of the
region.  The implementation file of `ccl_buffer` is not part of the source
tree. -/
structure ccl_buffer where
  size : Nat
  usage : ccl_buffer_usage
  contents : List Nat
  deriving DecidableEq, Repr

/-- Modelled from the spec: `ccl_create_buffer_ex` creates a buffer with a
usage hint; a non-null `initial_data` supplies the initial contents (for a
GPU-only buffer this creation-time copy is the only non-blit way to set its
content).  A null `initial_data` leaves the region zero-filled in this
model. -/
def ccl_create_buffer_ex (size : Nat) (usage : ccl_buffer_usage)
    (initial_data : Option (List Nat)) : ccl_error × Option ccl_buffer :=
  match initial_data with
  | some d =>
    (.CCL_OK, some ⟨size, usage, d.take size ++ List.replicate (size - d.length) 0⟩)
  | none => (.CCL_OK, some ⟨size, usage, List.replicate size 0⟩)

/-- Modelled from the spec: plain `ccl_buffer_upload` (no Context, hence no
blit path) fails on a GPU-only buffer, leaving it unchanged; otherwise it
overwrites `size` bytes at `offset`, rejecting out-of-range writes. -/
def ccl_buffer_upload (buf : ccl_buffer) (offset : Nat) (data : List Nat) :
    ccl_error × ccl_buffer :=
  if buf.usage = .CCL_BUFFER_USAGE_GPU_ONLY then
    (.CCL_ERROR_INVALID_ARGUMENT, buf)
  else if offset + data.length ≤ buf.size then
    (.CCL_OK,
     { buf with
        contents := buf.contents.take offset ++ data
          ++ buf.contents.drop (offset + data.length) })
  else (.CCL_ERROR_INVALID_ARGUMENT, buf)

/-- Modelled from the spec: plain `ccl_buffer_download` fails on a GPU-only
buffer rather than returning stale or zeroed bytes; otherwise it returns
`len` bytes read at `offset`. -/
def ccl_buffer_download (buf : ccl_buffer) (offset len : Nat) :
    ccl_error × Option (List Nat) :=
  if buf.usage = .CCL_BUFFER_USAGE_GPU_ONLY then
    (.CCL_ERROR_INVALID_ARGUMENT, none)
  else if offset + len ≤ buf.size then
    (.CCL_OK, some ((buf.contents.drop offset).take len))
  else (.CCL_ERROR_INVALID_ARGUMENT, none)

/-- Modelled from the spec: `ccl_buffer_upload_ex` with a Context supports
every usage, including GPU-only buffers, via an internal copy (blit) through
a transfer path. -/
def ccl_buffer_upload_ex (ctx : ccl_context) (buf : ccl_buffer) (offset : Nat)
    (data : List Nat) : ccl_error × ccl_buffer :=
  if offset + data.length ≤ buf.size then
    (.CCL_OK,
     { buf with
        contents := buf.contents.take offset ++ data
          ++ buf.contents.drop (offset + data.length) })
  else (.CCL_ERROR_INVALID_ARGUMENT, buf)

/-- Modelled from the spec: `ccl_buffer_download_ex` with a Context supports
every usage, including GPU-only buffers, via an internal copy (blit) through
a transfer path. -/
def ccl_buffer_download_ex (ctx : ccl_context) (buf : ccl_buffer) (offset len : Nat) :
    ccl_error × Option (List Nat) :=
  if offset + len ≤ buf.size then
    (.CCL_OK, some ((buf.contents.drop offset).take len))
  else (.CCL_ERROR_INVALID_ARGUMENT, none)

/-- C5: a GPU-only buffer's content may be set only at creation time: every
later plain `ccl_buffer_upload` and `ccl_buffer_download` on it fails with a
non-Ok error, the upload leaves the buffer unchanged and the download
returns no bytes (neither stale nor zeroed data). -/
theorem gpu_only_plain_transfer_fails (buf : ccl_buffer)
    (h : buf.usage = ccl_buffer_usage.CCL_BUFFER_USAGE_GPU_ONLY)
    (offset len : Nat) (data : List Nat) :
    (ccl_buffer_upload buf offset data).1 ≠ ccl_error.CCL_OK ∧
    (ccl_buffer_upload buf offset data).2 = buf ∧
    (ccl_buffer_download buf offset len).1 ≠ ccl_error.CCL_OK ∧
    (ccl_buffer_download buf offset len).2 = none := by
  rw [ccl_buffer_upload, ccl_buffer_download, if_pos h, if_pos h]
  refine ⟨?_, rfl, ?_, rfl⟩ <;> intro hc <;> cases hc

theorem gpu_only_plain_transfer_fails_witness :
    (ccl_buffer_upload ⟨4, .CCL_BUFFER_USAGE_GPU_ONLY, [1, 2, 3, 4]⟩ 0 [5, 5]).1
      ≠ ccl_error.CCL_OK ∧
    (ccl_buffer_upload ⟨4, .CCL_BUFFER_USAGE_GPU_ONLY, [1, 2, 3, 4]⟩ 0 [5, 5]).2
      = ⟨4, .CCL_BUFFER_USAGE_GPU_ONLY, [1, 2, 3, 4]⟩ ∧
    (ccl_buffer_download ⟨4, .CCL_BUFFER_USAGE_GPU_ONLY, [1, 2, 3, 4]⟩ 0 4).1
      ≠ ccl_error.CCL_OK ∧
    (ccl_buffer_download ⟨4, .CCL_BUFFER_USAGE_GPU_ONLY, [1, 2, 3, 4]⟩ 0 4).2 = none :=
  gpu_only_plain_transfer_fails ⟨4, .CCL_BUFFER_USAGE_GPU_ONLY, [1, 2, 3, 4]⟩ rfl 0 4 [5, 5]

/-- C6: creating a GPU-only buffer with full-size `initial_data` and then
downloading the whole buffer through `ccl_buffer_download_ex` on the same
Context succeeds and returns exactly the originally supplied bytes: the
create/download round-trip through the blit transfer path is the identity on
the data. -/
theorem gpu_only_create_download_roundtrip (ctx : ccl_context) (sz : Nat)
    (d : List Nat) (hd : d.length = sz) :
    (ccl_create_buffer_ex sz ccl_buffer_usage.CCL_BUFFER_USAGE_GPU_ONLY (some d)).1
      = ccl_error.CCL_OK ∧
    ((ccl_create_buffer_ex sz ccl_buffer_usage.CCL_BUFFER_USAGE_GPU_ONLY (some d)).2).map
      (fun b => ccl_buffer_download_ex ctx b 0 sz) = some (ccl_error.CCL_OK, some d) := by
  subst hd
  refine ⟨rfl, ?_⟩
  simp [ccl_create_buffer_ex, ccl_buffer_download_ex]

theorem gpu_only_create_download_roundtrip_witness :
    (ccl_create_buffer_ex 3 ccl_buffer_usage.CCL_BUFFER_USAGE_GPU_ONLY
      (some [10, 20, 30])).1 = ccl_error.CCL_OK ∧
    ((ccl_create_buffer_ex 3 ccl_buffer_usage.CCL_BUFFER_USAGE_GPU_ONLY
      (some [10, 20, 30])).2).map
      (fun b => ccl_buffer_download_ex sampleCtxIdle b 0 3)
      = some (ccl_error.CCL_OK, some [10, 20, 30]) :=
  gpu_only_create_download_roundtrip sampleCtxIdle 3 [10, 20, 30] (by decide)

/-- Modelled from the spec: `ccl_create_function_table` — a capability-gated
operation: when the function-pointers capability flag cached in the Context
is false it returns the distinct unsupported error without attempting the
operation; when true it creates one backend object. -/
def ccl_create_function_table (ctx : ccl_context) (size : Nat) :
    ccl_error × ccl_context × Option Nat :=
  if ctx.caps.supports_function_pointers then
    (.CCL_OK, { ctx with objCount := ctx.objCount + 1 }, some ctx.objCount)
  else (.CCL_ERROR_NOT_SUPPORTED, ctx, none)

/-- Modelled from the spec: `ccl_create_binary_archive`, gated on the
binary-archives capability flag. -/
def ccl_create_binary_archive (ctx : ccl_context) :
    ccl_error × ccl_context × Option Nat :=
  if ctx.caps.supports_binary_archives then
    (.CCL_OK, { ctx with objCount := ctx.objCount + 1 }, some ctx.objCount)
  else (.CCL_ERROR_NOT_SUPPORTED, ctx, none)

/-- Modelled from the spec: `ccl_create_acceleration_structure` (ray
tracing), gated on the raytracing capability flag. -/
def ccl_create_acceleration_structure (ctx : ccl_context) (geometry_count : Nat) :
    ccl_error × ccl_context × Option Nat :=
  if ctx.caps.supports_raytracing then
    (.CCL_OK, { ctx with objCount := ctx.objCount + 1 }, some ctx.objCount)
  else (.CCL_ERROR_NOT_SUPPORTED, ctx, none)

/-- Modelled from the spec: `ccl_create_indirect_command_buffer`, gated on
the indirect-command-buffers capability flag. -/
def ccl_create_indirect_command_buffer (ctx : ccl_context) (max_commands : Nat) :
    ccl_error × ccl_context × Option Nat :=
  if ctx.caps.supports_indirect_command_buffers then
    (.CCL_OK, { ctx with objCount := ctx.objCount + 1 }, some ctx.objCount)
  else (.CCL_ERROR_NOT_SUPPORTED, ctx, none)

/-- Modelled from the spec: `ccl_create_gpu_dynamic_library`, a Metal 4
feature gated on the Metal 4 capability flag. -/
def ccl_create_gpu_dynamic_library (ctx : ccl_context) (lib_size : Nat) :
    ccl_error × ccl_context × Option Nat :=
  if ctx.caps.supports_metal_4 then
    (.CCL_OK, { ctx with objCount := ctx.objCount + 1 }, some ctx.objCount)
  else (.CCL_ERROR_NOT_SUPPORTED, ctx, none)

/-- Modelled from the spec: `mtl_compute_heap_create`, gated on the heaps
capability flag; the Metal layer reports `MTL_ERROR_UNSUPPORTED` (a NULL
heap) when the flag is false. -/
def mtl_compute_heap_create (ctx : ccl_context) (size : Nat) :
    MTLComputeError × ccl_context × Option Nat :=
  if ctx.caps.supports_heaps then
    (.MTL_SUCCESS, { ctx with objCount := ctx.objCount + 1 }, some ctx.objCount)
  else (.MTL_ERROR_UNSUPPORTED, ctx, none)

/-- C7: every capability-gated feature operation — function tables, binary
archives, ray tracing, indirect command buffers, heaps, GPU dynamic
libraries — returns the distinct unsupported error when its capability flag
cached at Context creation is false, without attempting the operation:
calling it speculatively is safe, the Context (including its backend-object
count) is unchanged and no object is returned. -/
theorem capability_gated_ops_safe (ctx : ccl_context) (n m gc ls : Nat)
    (h1 : ctx.caps.supports_function_pointers = false)
    (h2 : ctx.caps.supports_binary_archives = false)
    (h3 : ctx.caps.supports_raytracing = false)
    (h4 : ctx.caps.supports_indirect_command_buffers = false)
    (h5 : ctx.caps.supports_heaps = false)
    (h6 : ctx.caps.supports_metal_4 = false) :
    ccl_create_function_table ctx n = (ccl_error.CCL_ERROR_NOT_SUPPORTED, ctx, none) ∧
    ccl_create_binary_archive ctx = (ccl_error.CCL_ERROR_NOT_SUPPORTED, ctx, none) ∧
    ccl_create_acceleration_structure ctx gc
      = (ccl_error.CCL_ERROR_NOT_SUPPORTED, ctx, none) ∧
    ccl_create_indirect_command_buffer ctx m
      = (ccl_error.CCL_ERROR_NOT_SUPPORTED, ctx, none) ∧
    mtl_compute_heap_create ctx n = (MTLComputeError.MTL_ERROR_UNSUPPORTED, ctx, none) ∧
    ccl_create_gpu_dynamic_library ctx ls
      = (ccl_error.CCL_ERROR_NOT_SUPPORTED, ctx, none) := by
  simp [ccl_create_function_table, ccl_create_binary_archive,
    ccl_create_acceleration_structure, ccl_create_indirect_command_buffer,
    mtl_compute_heap_create, ccl_create_gpu_dynamic_library,
    h1, h2, h3, h4, h5, h6]

theorem capability_gated_ops_safe_witness :
    ccl_create_function_table sampleCtxIdle 8
      = (ccl_error.CCL_ERROR_NOT_SUPPORTED, sampleCtxIdle, none) ∧
    ccl_create_binary_archive sampleCtxIdle
      = (ccl_error.CCL_ERROR_NOT_SUPPORTED, sampleCtxIdle, none) ∧
    ccl_create_acceleration_structure sampleCtxIdle 1
      = (ccl_error.CCL_ERROR_NOT_SUPPORTED, sampleCtxIdle, none) ∧
    ccl_create_indirect_command_buffer sampleCtxIdle 16
      = (ccl_error.CCL_ERROR_NOT_SUPPORTED, sampleCtxIdle, none) ∧
    mtl_compute_heap_create sampleCtxIdle 8
      = (MTLComputeError.MTL_ERROR_UNSUPPORTED, sampleCtxIdle, none) ∧
    ccl_create_gpu_dynamic_library sampleCtxIdle 256
      = (ccl_error.CCL_ERROR_NOT_SUPPORTED, sampleCtxIdle, none) :=
  capability_gated_ops_safe sampleCtxIdle 8 16 1 256 rfl rfl rfl rfl rfl rfl

end CCL
